import Mathlib

/-!
Shallow embedding of the node startup orchestration of the dennisss/datalayer
raft package, covering `Node::start` and `Node::routes_sync` from
`src/pkg/raft/src/node.rs` and `main_task` / `main` from
`src/pkg/raft/src/main.rs`.

Both startup functions are modelled as pure functions from an environment
(`Env`: CLI flags, which durable files exist on disk and their contents, the
random cluster id drawn by `thread_rng`, and the outcomes of the discovery and
Propose RPCs) to a trace of observable events (`Event`: branch taken, file
purges, durable file writes, RPC calls, in program order) together with an
`Except` result (`StartError` for propagated `?`-errors and panics,
`StartResult` for a successful start).

64-bit integers of the source (server ids, cluster ids, terms, log indices)
are modelled as `Nat`: the startup code performs no arithmetic on them, so
wrap-around cannot occur on any path modelled here.
-/

namespace Raft

/-- Server identifier (u64 in the source). -/
abbrev ServerId := Nat

/-- Cluster identifier (u64 in the source). -/
abbrev ClusterId := Nat

/-- Log index (u64 in the source). -/
abbrev LogIndex := Nat

/-- Modelled from the spec: the protos module is not under src/; section 3
gives ConfigChange as the tagged union over AddMember and RemoveMember. -/
inductive ConfigChange
  | AddMember (id : ServerId)
  | RemoveMember (id : ServerId)
deriving DecidableEq, Repr

/-- Modelled from the spec: section 3 gives LogEntryData as the tagged union
Noop, Command (opaque bytes), Config (ConfigChange). -/
inductive LogEntryData
  | Noop
  | Command (data : List Nat)
  | Config (change : ConfigChange)
deriving DecidableEq, Repr

/-- Modelled from the spec: section 3 gives LogEntry as term, index
(monotonic, starting at 1) and data. -/
structure LogEntry where
  term : Nat
  index : Nat
  data : LogEntryData
deriving DecidableEq, Repr

/-- Modelled from the spec: section 3 gives Metadata as the Raft-persistent
state current_term, voted_for and commit_index. -/
structure Metadata where
  current_term : Nat
  voted_for : Option ServerId
  commit_index : Nat
deriving DecidableEq, Repr

/-- Metadata::default(): all fields zero or unset. -/
def defaultMetadata : Metadata := ⟨0, none, 0⟩

/-- Modelled from the spec: section 3 gives ServerMetadata as id, cluster_id
and the raft Metadata record. -/
structure ServerMetadata where
  id : ServerId
  cluster_id : ClusterId
  meta : Metadata
deriving DecidableEq, Repr

/-- Modelled from the spec: section 3 gives ServerConfigurationSnapshot as the
last known committed membership (members, learners, last_applied). -/
structure ServerConfigurationSnapshot where
  last_applied : LogIndex
  members : List ServerId
  learners : List ServerId
deriving DecidableEq, Repr

/-- ServerConfigurationSnapshot::default(): empty membership. -/
def defaultConfigSnapshot : ServerConfigurationSnapshot := ⟨0, [], []⟩

/-- Modelled from the spec: section 3 gives Announcement as a serializable
snapshot of a subset of the routing table; only its identity matters to the
orchestrator, so it is kept abstract as the list of announced server ids. -/
structure Announcement where
  routes : List ServerId
deriving DecidableEq, Repr

/-- Modelled from the spec: section 4.3 gives Propose(data, wait). -/
structure ProposeRequest where
  data : LogEntryData
  wait : Bool
deriving DecidableEq, Repr

/-- Modelled from the spec: section 4.3 gives the Propose response as the index
and term of the appended entry. -/
structure ProposeResponse where
  term : Nat
  index : LogIndex
deriving DecidableEq, Repr

/-- Observable effects of one run of the startup code, in program order:
which branch of the restore-or-fresh decision was taken, the purges of
leftover files, the discovery seeding and Propose RPCs, and the durable file
writes. -/
inductive Event
  | branchRestore
  | branchFresh
  | purgeConfig
  | purgeRoutes
  | purgeLog
  | seed
  | proposeCall (dst : ServerId) (req : ProposeRequest)
  | logCreate
  | logAppend (e : LogEntry)
  | logFlush
  | configCreate
  | routesCreate
  | metaCreate (m : ServerMetadata)
deriving DecidableEq, Repr

def Event.isMetaCreate : Event → Bool
  | .metaCreate _ => true
  | _ => false

def Event.isConfigCreate : Event → Bool
  | .configCreate => true
  | _ => false

def Event.isRoutesCreate : Event → Bool
  | .routesCreate => true
  | _ => false

def Event.isFlush : Event → Bool
  | .logFlush => true
  | _ => false

def Event.isAppend : Event → Bool
  | .logAppend _ => true
  | _ => false

def Event.isPurgeConfig : Event → Bool
  | .purgeConfig => true
  | _ => false

def Event.isPurgeRoutes : Event → Bool
  | .purgeRoutes => true
  | _ => false

def Event.isPurgeLog : Event → Bool
  | .purgeLog => true
  | _ => false

/-- A durable-file write: creation of, append to, or flush of any of the four
on-disk files (log, config snapshot, routes snapshot, metadata). -/
def Event.isWrite : Event → Bool
  | .logCreate => true
  | .logAppend _ => true
  | .logFlush => true
  | .configCreate => true
  | .routesCreate => true
  | .metaCreate _ => true
  | _ => false

/-- Fatal startup outcomes: errors propagated by the question-mark operator
and panics, with the panic message kept. -/
inductive StartError
  | ioError
  | seedError
  | proposeError
  | panicked (msg : String)
deriving DecidableEq, Repr

/-- Panic message at node.rs line 107. -/
def stateMachinePanicMsg : String :=
  "Can not trust already state machine data without corresponding metadata"

/-- The expect message at node.rs line 159 / main.rs line 391. -/
def noClusterIdMsg : String :=
  "No cluster_id obtained during initial cluster connection"

/-- Panic of the unwrap at node.rs line 145 / main.rs line 376 when the routes
table is empty after seeding. -/
def emptyRoutesPanicMsg : String :=
  "unwrap of the first route failed: no routes after seeding"

/-- The external world as seen by one run of the startup code: CLI flags, the
configured last_applied index, which durable files are present on disk and
their already-unmarshalled contents, whether the fallible setup steps
succeed, the random number drawn for a bootstrap cluster id, and the outcomes
of the discovery round and of the id-acquisition Propose RPC. -/
structure Env where
  bootstrap : Bool
  lastApplied : Nat
  dirLockError : Bool
  builderError : Bool
  metaExists : Bool
  configExists : Bool
  routesExists : Bool
  storedMeta : ServerMetadata
  storedConfig : ServerConfigurationSnapshot
  storedAnn : Announcement
  storedLog : List LogEntry
  randClusterId : ClusterId
  seedOk : Bool
  routesAfterSeed : List ServerId
  proposeOk : Bool
  proposeResp : ProposeResponse
  agentClusterId : Option ClusterId
deriving DecidableEq, Repr

/-- The initial state a successful startup hands to Server::new: which branch
produced it, the server metadata, the config snapshot, the log contents, and
the is_empty flag that decides whether a membership proposal is issued. -/
structure StartResult where
  restored : Bool
  meta : ServerMetadata
  config_snapshot : ServerConfigurationSnapshot
  log : List LogEntry
  is_empty : Bool
deriving DecidableEq, Repr

/-- log.last_index().unwrap_or(0) for a log given as its entry list. -/
def lastIndex (l : List LogEntry) : Nat :=
  match l.getLast? with
  | none => 0
  | some e => e.index

/-- Modelled from the spec: Server::start is not under src/; per section 3 the
agent identity is set exactly once during startup from the server metadata,
and node.rs line 218 / main.rs line 445 read it back as our_id. -/
def serverIdentityId (m : ServerMetadata) : ServerId := m.id

/-- The single seed entry appended on the bootstrap path
(node.rs 133-137 / main.rs 364-368). -/
def bootEntry : LogEntry := ⟨1, 1, .Config (.AddMember 1)⟩

/-- The purges of partial leftover files on the fresh path of Node::start
(node.rs 112-114), in program order. -/
def purgeEvents : List Event := [.purgeConfig, .purgeRoutes, .purgeLog]

/-- The membership proposal sent to server id 1 with wait:false when the log
is empty at start (node.rs 240-248 / main.rs 465-473). -/
def joinProposeEvent (id : ServerId) : Event :=
  .proposeCall 1 ⟨.Config (.AddMember id), false⟩

/-- Fresh-start id acquisition, identical in Node::start (node.rs 126-161) and
main_task (main.rs 356-393): under bootstrap, assign id 1, draw a random
cluster id and seed the log with the single AddMember(1) entry at term 1,
index 1; otherwise await discovery.seed(), send a Noop Propose with wait:true
to the first discovered peer, take the returned log index as the id, and read
the cluster id from the agent, panicking when it was never set. -/
def freshIdAssign (env : Env) :
    List Event × Except StartError (ServerMetadata × List LogEntry) :=
  if env.bootstrap then
    ([], .ok (⟨1, env.randClusterId, defaultMetadata⟩, [bootEntry]))
  else if env.seedOk = false then
    ([.seed], .error .seedError)
  else
    match env.routesAfterSeed with
    | [] => ([.seed], .error (.panicked emptyRoutesPanicMsg))
    | firstId :: _ =>
      let tr := [Event.seed, Event.proposeCall firstId ⟨.Noop, true⟩]
      if env.proposeOk = false then
        (tr, .error .proposeError)
      else
        match env.agentClusterId with
        | none => (tr, .error (.panicked noClusterIdMsg))
        | some cid =>
          (tr, .ok (⟨env.proposeResp.index, cid, defaultMetadata⟩, []))

/-- Common tail of both orchestrators: wrap up the initial state and, when the
is_empty flag is set, issue the AddMember membership proposal for the node
identity to server id 1 with wait:false. -/
def finishWith (branch : Event) (tr : List Event) (restored : Bool)
    (m : ServerMetadata) (cs : ServerConfigurationSnapshot)
    (lg : List LogEntry) (is0 : Bool) :
    List Event × Except StartError StartResult :=
  (branch :: tr ++ (if is0 then [joinProposeEvent (serverIdentityId m)] else []),
   .ok ⟨restored, m, cs, lg, is0⟩)

/-- Durable-file writes of the fresh path of Node::start (node.rs 168-183):
create the log file, append the seed entries, flush, create the config
snapshot file, then the routes file, and the metadata file last. -/
def freshWrites (m : ServerMetadata) (lg : List LogEntry) : List Event :=
  [Event.logCreate] ++ lg.map Event.logAppend ++
    [Event.logFlush, Event.configCreate, Event.routesCreate, Event.metaCreate m]

/-- Durable-file writes of the fresh path of main_task (main.rs 401-408): the
metadata file is created first, then the config snapshot file, then the log
file is created and the entries appended; the log is never flushed and no
routes file is written at all. -/
def mainWrites (m : ServerMetadata) (lg : List LogEntry) : List Event :=
  [Event.metaCreate m, Event.configCreate, Event.logCreate] ++
    lg.map Event.logAppend

/-- Node::start (node.rs 54-262). When the metadata file exists, the metadata,
config snapshot, routes snapshot and log are loaded from disk (a missing
config or routes file makes the open fail); the loaded routes are applied to
the agent. Otherwise the node refuses a non-zero last_applied, purges any
partial leftover files, acquires an identity (bootstrap or join), writes the
durable files (log appended and flushed, config, routes, metadata last) and,
when the log is empty, proposes its own membership. The fallibility of
BlobFile::builder is folded into builderError; I/O failures of the write
phase itself are not modelled separately. -/
def nodeStart (env : Env) : List Event × Except StartError StartResult :=
  if env.builderError then ([], .error .ioError)
  else if env.metaExists then
    if env.configExists && env.routesExists then
      finishWith .branchRestore [] true env.storedMeta env.storedConfig
        env.storedLog (lastIndex env.storedLog == 0)
    else ([.branchRestore], .error .ioError)
  else if 0 < env.lastApplied then
    ([.branchFresh], .error (.panicked stateMachinePanicMsg))
  else
    match freshIdAssign env with
    | (tr, .error e) => (.branchFresh :: (purgeEvents ++ tr), .error e)
    | (tr, .ok (m, lg)) =>
      finishWith .branchFresh (purgeEvents ++ tr ++ freshWrites m lg) false m
        defaultConfigSnapshot lg (lastIndex lg == 0)

/-- main_task (main.rs 264-499). The restore branch is taken when the metadata
file OR the config snapshot file exists (main.rs 329) and opens both (so a
partial pair fails); is_empty is hardwired: false on the restore and
bootstrap paths, true on the join path. On the fresh path there are no
purges, the metadata file is written first, and the log is never flushed. -/
def mainTask (env : Env) : List Event × Except StartError StartResult :=
  if env.dirLockError then ([], .error .ioError)
  else if env.metaExists || env.configExists then
    if env.metaExists && env.configExists then
      finishWith .branchRestore [] true env.storedMeta env.storedConfig
        env.storedLog false
    else ([.branchRestore], .error .ioError)
  else
    match freshIdAssign env with
    | (tr, .error e) => (.branchFresh :: tr, .error e)
    | (tr, .ok (m, lg)) =>
      finishWith .branchFresh (tr ++ mainWrites m lg) false m
        defaultConfigSnapshot lg (!env.bootstrap)

/-- main (main.rs 502-516): tokio::run executes main_task with its error
mapped to an eprintln and discarded; main then returns Ok(()), so the process
exit status is 0 on every run, fatal startup errors included. -/
def mainExitStatus (env : Env) : Nat :=
  match (mainTask env).snd with
  | .ok _ => 0
  | .error _ => 0

/-- State visible to one iteration of Node::routes_sync (node.rs 266-277): the
in-memory routing table of the agent and the content of the routes file on
disk (none when absent). -/
structure RoutesSyncState where
  agentRoutes : List ServerId
  routesFileOnDisk : Option (List ServerId)
deriving DecidableEq, Repr

/-- The fixed delay of the routes_sync loop (node.rs 272): 5000 milliseconds. -/
def routesSyncDelayMs : Nat := 5000

/-- One iteration of the loop_fn body of Node::routes_sync (node.rs 268-276):
the body is a bare Delay of routesSyncDelayMs followed by Loop::Continue; the
disk-syncing step is an unimplemented TODO in the source, so the iteration
leaves both the agent routes and the routes file untouched. -/
def routesSyncIter (st : RoutesSyncState) : RoutesSyncState := st

/-- Scanning left to right, every event satisfying b is preceded by one
satisfying a: hitting a b-event before any a-event refutes the property; the
events tracked here occur at most once per trace. -/
def occursBefore (a b : Event → Bool) : List Event → Bool
  | [] => true
  | e :: t => if b e then false else if a e then true else occursBefore a b t

/-- No log append occurs after a flush of the log. -/
def noAppendAfterFlush : List Event → Bool
  | [] => true
  | .logFlush :: t => t.all fun e => !(Event.isAppend e)
  | _ :: t => noAppendAfterFlush t

/-- The durable-write order required on first-time setup: all log appends
precede the flush, the flush precedes the config snapshot write, which
precedes the routes write, which precedes the metadata write; hence any crash
prefix containing the metadata write contains every other durable write. -/
def writesOrdered (t : List Event) : Bool :=
  occursBefore Event.isFlush Event.isConfigCreate t &&
    occursBefore Event.isConfigCreate Event.isRoutesCreate t &&
    occursBefore Event.isRoutesCreate Event.isMetaCreate t &&
    noAppendAfterFlush t

/-- Every durable-file write is preceded by all three purges. -/
def purgesBeforeWrites (t : List Event) : Bool :=
  occursBefore Event.isPurgeConfig Event.isWrite t &&
    occursBefore Event.isPurgeRoutes Event.isWrite t &&
    occursBefore Event.isPurgeLog Event.isWrite t

/-- Recognizes the membership proposal for the given id: a Propose of
Config(AddMember(id)) with wait:false sent to server id 1. -/
def isJoinProposeFor (id : ServerId) : Event → Bool
  | .proposeCall dst ⟨.Config (.AddMember j), w⟩ => dst == 1 && j == id && w == false
  | _ => false

/-- The trace contains the membership proposal for the given id. -/
def hasJoinPropose (id : ServerId) (t : List Event) : Bool :=
  t.any (isJoinProposeFor id)

/-- Every metadata file written in the trace records cluster id c. -/
def metaWritesRecord (c : ClusterId) (t : List Event) : Bool :=
  t.all fun e =>
    match e with
    | .metaCreate m => m.cluster_id == c
    | _ => true

/-- Well-formed stored log: every entry index is at least 1 (spec section 3:
log indices are contiguous starting at 1). -/
def wfLog (l : List LogEntry) : Bool := l.all fun e => e.index != 0


/-- Sample stored server metadata used by the concrete startup scenarios. -/
def smpl : ServerMetadata := ⟨7, 42, defaultMetadata⟩

/-- Sample stored config snapshot used by the concrete startup scenarios. -/
def scfg : ServerConfigurationSnapshot := ⟨3, [1, 2], []⟩

/-- Sample stored routes announcement used by the concrete startup scenarios. -/
def sann : Announcement := ⟨[1]⟩

/-- Fresh bootstrap start: empty directory, bootstrap flag set, random draw 99. -/
def envBoot : Env :=
  ⟨true, 0, false, false, false, false, false, smpl, scfg, sann, [], 99, true, [], true,
   ⟨1, 2⟩, none⟩

/-- Fresh join start: empty directory, no bootstrap flag, seeding finds peers 5
and 6, the Noop propose returns index 4 at term 3, the agent learned cluster
id 77. -/
def envJoin : Env :=
  ⟨false, 0, false, false, false, false, false, smpl, scfg, sann, [], 99, true, [5, 6],
   true, ⟨3, 4⟩, some 77⟩

/-- Restart with all three snapshot files present and an empty stored log. -/
def envRestoreEmpty : Env :=
  ⟨false, 0, false, false, true, true, true, smpl, scfg, sann, [], 99, true, [], true,
   ⟨1, 2⟩, none⟩

/-- Directory holding a config snapshot file but no metadata file. -/
def envConfigOnly : Env :=
  ⟨false, 0, false, false, false, true, false, smpl, scfg, sann, [], 99, true, [], true,
   ⟨1, 2⟩, none⟩

/-- Startup whose very first I/O step (the directory lock) fails. -/
def envLockFail : Env :=
  ⟨false, 0, true, false, false, false, false, smpl, scfg, sann, [], 99, true, [], true,
   ⟨1, 2⟩, none⟩

/-- No metadata file on disk but a state machine with last_applied 3. -/
def envStaleSM : Env :=
  ⟨false, 3, false, false, false, false, false, smpl, scfg, sann, [], 99, true, [], true,
   ⟨1, 2⟩, none⟩

/-- Fresh join start whose agent never learned a cluster id. -/
def envNoCid : Env :=
  ⟨false, 0, false, false, false, false, false, smpl, scfg, sann, [], 99, true, [5], true,
   ⟨3, 4⟩, none⟩

lemma lastIndex_cons_cons (a b : LogEntry) (t : List LogEntry) :
    lastIndex (a :: b :: t) = lastIndex (b :: t) := by
  simp [lastIndex, List.getLast?_cons_cons]

lemma lastIndex_zero_iff : ∀ l : List LogEntry, wfLog l = true → (lastIndex l == 0) = l.isEmpty
  | [], _ => rfl
  | [a], h => by
    simp [wfLog] at h
    simp [lastIndex, List.isEmpty, h]
  | a :: b :: t, h => by
    have h2 : wfLog (b :: t) = true := by
      simp [wfLog] at h ⊢
      exact h.2
    rw [lastIndex_cons_cons, lastIndex_zero_iff (b :: t) h2]
    rfl

lemma finishWith_fst (b : Event) (tr : List Event) (res : Bool) (m : ServerMetadata)
    (cs : ServerConfigurationSnapshot) (lg : List LogEntry) (is0 : Bool) :
    (finishWith b tr res m cs lg is0).fst =
      b :: tr ++ (if is0 then [joinProposeEvent (serverIdentityId m)] else []) := rfl

lemma finishWith_snd (b : Event) (tr : List Event) (res : Bool) (m : ServerMetadata)
    (cs : ServerConfigurationSnapshot) (lg : List LogEntry) (is0 : Bool) :
    (finishWith b tr res m cs lg is0).snd = .ok ⟨res, m, cs, lg, is0⟩ := rfl

lemma nodeStart_builderErr (env : Env) (hbe : env.builderError = true) :
    nodeStart env = ([], .error .ioError) := by
  simp [nodeStart, hbe]

lemma nodeStart_restoreMissing (env : Env) (hbe : env.builderError = false)
    (hme : env.metaExists = true)
    (hcr : (env.configExists && env.routesExists) = false) :
    nodeStart env = ([.branchRestore], .error .ioError) := by
  simp [nodeStart, hbe, hme, hcr]

lemma nodeStart_restore (env : Env) (hbe : env.builderError = false)
    (hme : env.metaExists = true)
    (hcr : (env.configExists && env.routesExists) = true) :
    nodeStart env = finishWith .branchRestore [] true env.storedMeta env.storedConfig
      env.storedLog (lastIndex env.storedLog == 0) := by
  simp [nodeStart, hbe, hme, hcr]

lemma nodeStart_smPanic (env : Env) (hbe : env.builderError = false)
    (hme : env.metaExists = false) (hla : 0 < env.lastApplied) :
    nodeStart env = ([.branchFresh], .error (.panicked stateMachinePanicMsg)) := by
  simp [nodeStart, hbe, hme, hla]

lemma nodeStart_fresh (env : Env) (hbe : env.builderError = false)
    (hme : env.metaExists = false) (hla : env.lastApplied = 0) :
    nodeStart env =
      match freshIdAssign env with
      | (tr, .error e) => (.branchFresh :: (purgeEvents ++ tr), .error e)
      | (tr, .ok (m, lg)) =>
        finishWith .branchFresh (purgeEvents ++ tr ++ freshWrites m lg) false m
          defaultConfigSnapshot lg (lastIndex lg == 0) := by
  simp [nodeStart, hbe, hme, hla]

lemma mainTask_dirLock (env : Env) (hd : env.dirLockError = true) :
    mainTask env = ([], .error .ioError) := by
  simp [mainTask, hd]

lemma mainTask_restore (env : Env) (hd : env.dirLockError = false)
    (hme : env.metaExists = true) (hce : env.configExists = true) :
    mainTask env = finishWith .branchRestore [] true env.storedMeta env.storedConfig
      env.storedLog false := by
  simp [mainTask, hd, hme, hce]

lemma mainTask_restoreMissing (env : Env) (hd : env.dirLockError = false)
    (hor : (env.metaExists || env.configExists) = true)
    (hand : (env.metaExists && env.configExists) = false) :
    mainTask env = ([.branchRestore], .error .ioError) := by
  simp [mainTask, hd, hor, hand]

lemma mainTask_fresh (env : Env) (hd : env.dirLockError = false)
    (hme : env.metaExists = false) (hce : env.configExists = false) :
    mainTask env =
      match freshIdAssign env with
      | (tr, .error e) => (.branchFresh :: tr, .error e)
      | (tr, .ok (m, lg)) =>
        finishWith .branchFresh (tr ++ mainWrites m lg) false m
          defaultConfigSnapshot lg (!env.bootstrap) := by
  simp [mainTask, hd, hme, hce]

lemma freshIdAssign_boot (env : Env) (hbs : env.bootstrap = true) :
    freshIdAssign env = ([], .ok (⟨1, env.randClusterId, defaultMetadata⟩, [bootEntry])) := by
  simp [freshIdAssign, hbs]

lemma freshIdAssign_seedFail (env : Env) (hbs : env.bootstrap = false)
    (hs : env.seedOk = false) :
    freshIdAssign env = ([.seed], .error .seedError) := by
  simp [freshIdAssign, hbs, hs]

lemma freshIdAssign_noRoutes (env : Env) (hbs : env.bootstrap = false)
    (hs : env.seedOk = true) (hr : env.routesAfterSeed = []) :
    freshIdAssign env = ([.seed], .error (.panicked emptyRoutesPanicMsg)) := by
  simp [freshIdAssign, hbs, hs, hr]

lemma freshIdAssign_proposeFail (env : Env) (f : ServerId) (rest : List ServerId)
    (hbs : env.bootstrap = false) (hs : env.seedOk = true)
    (hr : env.routesAfterSeed = f :: rest) (hp : env.proposeOk = false) :
    freshIdAssign env =
      ([.seed, .proposeCall f ⟨.Noop, true⟩], .error .proposeError) := by
  simp [freshIdAssign, hbs, hs, hr, hp]

lemma freshIdAssign_noCid (env : Env) (f : ServerId) (rest : List ServerId)
    (hbs : env.bootstrap = false) (hs : env.seedOk = true)
    (hr : env.routesAfterSeed = f :: rest) (hp : env.proposeOk = true)
    (ha : env.agentClusterId = none) :
    freshIdAssign env =
      ([.seed, .proposeCall f ⟨.Noop, true⟩], .error (.panicked noClusterIdMsg)) := by
  simp [freshIdAssign, hbs, hs, hr, hp, ha]

lemma freshIdAssign_join (env : Env) (f : ServerId) (rest : List ServerId) (c : ClusterId)
    (hbs : env.bootstrap = false) (hs : env.seedOk = true)
    (hr : env.routesAfterSeed = f :: rest) (hp : env.proposeOk = true)
    (ha : env.agentClusterId = some c) :
    freshIdAssign env =
      ([.seed, .proposeCall f ⟨.Noop, true⟩],
       .ok (⟨env.proposeResp.index, c, defaultMetadata⟩, [])) := by
  simp [freshIdAssign, hbs, hs, hr, hp, ha]

lemma nodeStart_boot (env : Env) (hbe : env.builderError = false)
    (hme : env.metaExists = false) (hla : env.lastApplied = 0)
    (hbs : env.bootstrap = true) :
    nodeStart env =
      ([.branchFresh, .purgeConfig, .purgeRoutes, .purgeLog, .logCreate,
        .logAppend bootEntry, .logFlush, .configCreate, .routesCreate,
        .metaCreate ⟨1, env.randClusterId, defaultMetadata⟩],
       .ok ⟨false, ⟨1, env.randClusterId, defaultMetadata⟩, defaultConfigSnapshot,
         [bootEntry], false⟩) := by
  obtain ⟨bs, la, dle, be, me, ce, re, sm, sc, sa, sl, rc, so, ras, po, pr, ac⟩ := env
  simp only at hbe hme hla hbs
  subst hbe; subst hme; subst hla; subst hbs
  rfl

lemma nodeStart_seedFail (env : Env) (hbe : env.builderError = false)
    (hme : env.metaExists = false) (hla : env.lastApplied = 0)
    (hbs : env.bootstrap = false) (hs : env.seedOk = false) :
    nodeStart env =
      ([.branchFresh, .purgeConfig, .purgeRoutes, .purgeLog, .seed],
       .error .seedError) := by
  obtain ⟨bs, la, dle, be, me, ce, re, sm, sc, sa, sl, rc, so, ras, po, pr, ac⟩ := env
  simp only at hbe hme hla hbs hs
  subst hbe; subst hme; subst hla; subst hbs; subst hs
  rfl

lemma nodeStart_noRoutes (env : Env) (hbe : env.builderError = false)
    (hme : env.metaExists = false) (hla : env.lastApplied = 0)
    (hbs : env.bootstrap = false) (hs : env.seedOk = true)
    (hr : env.routesAfterSeed = []) :
    nodeStart env =
      ([.branchFresh, .purgeConfig, .purgeRoutes, .purgeLog, .seed],
       .error (.panicked emptyRoutesPanicMsg)) := by
  obtain ⟨bs, la, dle, be, me, ce, re, sm, sc, sa, sl, rc, so, ras, po, pr, ac⟩ := env
  simp only at hbe hme hla hbs hs hr
  subst hbe; subst hme; subst hla; subst hbs; subst hs; subst hr
  rfl

lemma nodeStart_proposeFail (env : Env) (f : ServerId) (rest : List ServerId)
    (hbe : env.builderError = false) (hme : env.metaExists = false)
    (hla : env.lastApplied = 0) (hbs : env.bootstrap = false)
    (hs : env.seedOk = true) (hr : env.routesAfterSeed = f :: rest)
    (hp : env.proposeOk = false) :
    nodeStart env =
      ([.branchFresh, .purgeConfig, .purgeRoutes, .purgeLog, .seed,
        .proposeCall f ⟨.Noop, true⟩], .error .proposeError) := by
  obtain ⟨bs, la, dle, be, me, ce, re, sm, sc, sa, sl, rc, so, ras, po, pr, ac⟩ := env
  simp only at hbe hme hla hbs hs hr hp
  subst hbe; subst hme; subst hla; subst hbs; subst hs; subst hr; subst hp
  rfl

lemma nodeStart_noCid (env : Env) (f : ServerId) (rest : List ServerId)
    (hbe : env.builderError = false) (hme : env.metaExists = false)
    (hla : env.lastApplied = 0) (hbs : env.bootstrap = false)
    (hs : env.seedOk = true) (hr : env.routesAfterSeed = f :: rest)
    (hp : env.proposeOk = true) (ha : env.agentClusterId = none) :
    nodeStart env =
      ([.branchFresh, .purgeConfig, .purgeRoutes, .purgeLog, .seed,
        .proposeCall f ⟨.Noop, true⟩], .error (.panicked noClusterIdMsg)) := by
  obtain ⟨bs, la, dle, be, me, ce, re, sm, sc, sa, sl, rc, so, ras, po, pr, ac⟩ := env
  simp only at hbe hme hla hbs hs hr hp ha
  subst hbe; subst hme; subst hla; subst hbs; subst hs; subst hr; subst hp; subst ha
  rfl

lemma nodeStart_join (env : Env) (f : ServerId) (rest : List ServerId) (c : ClusterId)
    (hbe : env.builderError = false) (hme : env.metaExists = false)
    (hla : env.lastApplied = 0) (hbs : env.bootstrap = false)
    (hs : env.seedOk = true) (hr : env.routesAfterSeed = f :: rest)
    (hp : env.proposeOk = true) (ha : env.agentClusterId = some c) :
    nodeStart env =
      ([.branchFresh, .purgeConfig, .purgeRoutes, .purgeLog, .seed,
        .proposeCall f ⟨.Noop, true⟩, .logCreate, .logFlush, .configCreate,
        .routesCreate, .metaCreate ⟨env.proposeResp.index, c, defaultMetadata⟩,
        .proposeCall 1 ⟨.Config (.AddMember env.proposeResp.index), false⟩],
       .ok ⟨false, ⟨env.proposeResp.index, c, defaultMetadata⟩, defaultConfigSnapshot,
         [], true⟩) := by
  obtain ⟨bs, la, dle, be, me, ce, re, sm, sc, sa, sl, rc, so, ras, po, pr, ac⟩ := env
  simp only at hbe hme hla hbs hs hr hp ha
  subst hbe; subst hme; subst hla; subst hbs; subst hs; subst hr; subst hp; subst ha
  rfl

lemma mainTask_boot (env : Env) (hd : env.dirLockError = false)
    (hme : env.metaExists = false) (hce : env.configExists = false)
    (hbs : env.bootstrap = true) :
    mainTask env =
      ([.branchFresh, .metaCreate ⟨1, env.randClusterId, defaultMetadata⟩, .configCreate,
        .logCreate, .logAppend bootEntry],
       .ok ⟨false, ⟨1, env.randClusterId, defaultMetadata⟩, defaultConfigSnapshot,
         [bootEntry], false⟩) := by
  obtain ⟨bs, la, dle, be, me, ce, re, sm, sc, sa, sl, rc, so, ras, po, pr, ac⟩ := env
  simp only at hd hme hce hbs
  subst hd; subst hme; subst hce; subst hbs
  rfl

lemma mainTask_seedFail (env : Env) (hd : env.dirLockError = false)
    (hme : env.metaExists = false) (hce : env.configExists = false)
    (hbs : env.bootstrap = false) (hs : env.seedOk = false) :
    mainTask env = ([.branchFresh, .seed], .error .seedError) := by
  obtain ⟨bs, la, dle, be, me, ce, re, sm, sc, sa, sl, rc, so, ras, po, pr, ac⟩ := env
  simp only at hd hme hce hbs hs
  subst hd; subst hme; subst hce; subst hbs; subst hs
  rfl

lemma mainTask_noRoutes (env : Env) (hd : env.dirLockError = false)
    (hme : env.metaExists = false) (hce : env.configExists = false)
    (hbs : env.bootstrap = false) (hs : env.seedOk = true)
    (hr : env.routesAfterSeed = []) :
    mainTask env = ([.branchFresh, .seed], .error (.panicked emptyRoutesPanicMsg)) := by
  obtain ⟨bs, la, dle, be, me, ce, re, sm, sc, sa, sl, rc, so, ras, po, pr, ac⟩ := env
  simp only at hd hme hce hbs hs hr
  subst hd; subst hme; subst hce; subst hbs; subst hs; subst hr
  rfl

lemma mainTask_proposeFail (env : Env) (f : ServerId) (rest : List ServerId)
    (hd : env.dirLockError = false) (hme : env.metaExists = false)
    (hce : env.configExists = false) (hbs : env.bootstrap = false)
    (hs : env.seedOk = true) (hr : env.routesAfterSeed = f :: rest)
    (hp : env.proposeOk = false) :
    mainTask env =
      ([.branchFresh, .seed, .proposeCall f ⟨.Noop, true⟩], .error .proposeError) := by
  obtain ⟨bs, la, dle, be, me, ce, re, sm, sc, sa, sl, rc, so, ras, po, pr, ac⟩ := env
  simp only at hd hme hce hbs hs hr hp
  subst hd; subst hme; subst hce; subst hbs; subst hs; subst hr; subst hp
  rfl

lemma mainTask_noCid (env : Env) (f : ServerId) (rest : List ServerId)
    (hd : env.dirLockError = false) (hme : env.metaExists = false)
    (hce : env.configExists = false) (hbs : env.bootstrap = false)
    (hs : env.seedOk = true) (hr : env.routesAfterSeed = f :: rest)
    (hp : env.proposeOk = true) (ha : env.agentClusterId = none) :
    mainTask env =
      ([.branchFresh, .seed, .proposeCall f ⟨.Noop, true⟩],
       .error (.panicked noClusterIdMsg)) := by
  obtain ⟨bs, la, dle, be, me, ce, re, sm, sc, sa, sl, rc, so, ras, po, pr, ac⟩ := env
  simp only at hd hme hce hbs hs hr hp ha
  subst hd; subst hme; subst hce; subst hbs; subst hs; subst hr; subst hp; subst ha
  rfl

lemma mainTask_join (env : Env) (f : ServerId) (rest : List ServerId) (c : ClusterId)
    (hd : env.dirLockError = false) (hme : env.metaExists = false)
    (hce : env.configExists = false) (hbs : env.bootstrap = false)
    (hs : env.seedOk = true) (hr : env.routesAfterSeed = f :: rest)
    (hp : env.proposeOk = true) (ha : env.agentClusterId = some c) :
    mainTask env =
      ([.branchFresh, .seed, .proposeCall f ⟨.Noop, true⟩,
        .metaCreate ⟨env.proposeResp.index, c, defaultMetadata⟩, .configCreate, .logCreate,
        .proposeCall 1 ⟨.Config (.AddMember env.proposeResp.index), false⟩],
       .ok ⟨false, ⟨env.proposeResp.index, c, defaultMetadata⟩, defaultConfigSnapshot,
         [], true⟩) := by
  obtain ⟨bs, la, dle, be, me, ce, re, sm, sc, sa, sl, rc, so, ras, po, pr, ac⟩ := env
  simp only at hd hme hce hbs hs hr hp ha
  subst hd; subst hme; subst hce; subst hbs; subst hs; subst hr; subst hp; subst ha
  rfl

set_option maxHeartbeats 1600000 in
/-- C1 (amended): On first-time setup Node::start persists the durable files in
the claimed order on every run — all log appends precede the flush, the flush
precedes the config snapshot file, then the routes file, and the metadata
file comes last — so any crash prefix of the trace that contains the metadata
write already contains every other durable write. main_task however creates
the metadata file before the config and log files, never flushes the log and
writes no routes file, so the claimed ordering holds only for Node::start. -/
theorem C1_metadata_write_order :
    (∀ env : Env, writesOrdered (nodeStart env).fst = true) ∧
    (∀ env : Env,
      occursBefore Event.isMetaCreate Event.isConfigCreate (mainTask env).fst = true ∧
      (mainTask env).fst.all
        (fun e => !(Event.isFlush e) && !(Event.isRoutesCreate e)) = true) := by
  constructor
  · intro env
    obtain ⟨bs, la, dle, be, me, ce, re, sm, sc, sa, sl, rc, so, ras, po, pr, ac⟩ := env
    simp only [nodeStart, freshIdAssign]
    cases be <;> cases me <;> cases la <;> cases bs <;> cases so <;> cases po <;>
      cases ac <;> cases ras <;> cases ce <;> cases re <;>
      simp [writesOrdered, occursBefore, noAppendAfterFlush, finishWith, freshWrites,
        purgeEvents, joinProposeEvent, bootEntry, lastIndex, Event.isFlush,
        Event.isConfigCreate, Event.isRoutesCreate, Event.isMetaCreate, Event.isAppend] <;>
      first
        | rfl
        | (split <;> simp [writesOrdered, occursBefore, noAppendAfterFlush,
            joinProposeEvent, Event.isFlush, Event.isConfigCreate, Event.isRoutesCreate,
            Event.isMetaCreate, Event.isAppend])
  · intro env
    obtain ⟨bs, la, dle, be, me, ce, re, sm, sc, sa, sl, rc, so, ras, po, pr, ac⟩ := env
    simp only [mainTask, freshIdAssign]
    cases dle <;> cases me <;> cases ce <;> cases bs <;> cases so <;> cases po <;>
      cases ac <;> cases ras <;>
      simp [occursBefore, finishWith, mainWrites, joinProposeEvent, bootEntry,
        Event.isFlush, Event.isConfigCreate, Event.isRoutesCreate, Event.isMetaCreate,
        Event.isAppend]

/-- C1 fails as stated for main_task: on a fresh bootstrap start, a crash after
the first two steps leaves the metadata file on disk while the config
snapshot file was not yet created; moreover the whole run never flushes the
log and never writes a routes file, so the existence of the metadata file
does not imply the other durable files were written. -/
theorem C1_cex_main_meta_first :
    ((mainTask envBoot).fst.take 2).any Event.isMetaCreate = true ∧
    ((mainTask envBoot).fst.take 2).any Event.isConfigCreate = false ∧
    (mainTask envBoot).fst.any Event.isFlush = false ∧
    (mainTask envBoot).fst.any Event.isRoutesCreate = false := by decide

/-- C2: On every fresh start (no metadata file; for main_task also no config
snapshot file) with the bootstrap flag set, both orchestrators assign
themselves server id 1, take the freshly drawn random value as the cluster
id, and create a log containing exactly the single entry with term 1, index 1
and data Config(AddMember(1)). -/
theorem C2_bootstrap_initial_state :
    (∀ env : Env, env.builderError = false → env.metaExists = false →
      env.lastApplied = 0 → env.bootstrap = true →
      nodeStart env =
        ([.branchFresh, .purgeConfig, .purgeRoutes, .purgeLog, .logCreate,
          .logAppend bootEntry, .logFlush, .configCreate, .routesCreate,
          .metaCreate ⟨1, env.randClusterId, defaultMetadata⟩],
         .ok ⟨false, ⟨1, env.randClusterId, defaultMetadata⟩, defaultConfigSnapshot,
           [bootEntry], false⟩)) ∧
    (∀ env : Env, env.dirLockError = false → env.metaExists = false →
      env.configExists = false → env.bootstrap = true →
      mainTask env =
        ([.branchFresh, .metaCreate ⟨1, env.randClusterId, defaultMetadata⟩, .configCreate,
          .logCreate, .logAppend bootEntry],
         .ok ⟨false, ⟨1, env.randClusterId, defaultMetadata⟩, defaultConfigSnapshot,
           [bootEntry], false⟩)) :=
  ⟨fun env hbe hme hla hbs => nodeStart_boot env hbe hme hla hbs,
   fun env hd hme hce hbs => mainTask_boot env hd hme hce hbs⟩

/-- C2 witness: the concrete bootstrap scenario envBoot (random draw 99)
produces id 1, cluster id 99 and the single AddMember(1) entry at term 1,
index 1, in both orchestrators. -/
theorem C2_bootstrap_initial_state_w :
    nodeStart envBoot =
      ([.branchFresh, .purgeConfig, .purgeRoutes, .purgeLog, .logCreate,
        .logAppend bootEntry, .logFlush, .configCreate, .routesCreate,
        .metaCreate ⟨1, 99, defaultMetadata⟩],
       .ok ⟨false, ⟨1, 99, defaultMetadata⟩, defaultConfigSnapshot, [bootEntry], false⟩) ∧
    mainTask envBoot =
      ([.branchFresh, .metaCreate ⟨1, 99, defaultMetadata⟩, .configCreate, .logCreate,
        .logAppend bootEntry],
       .ok ⟨false, ⟨1, 99, defaultMetadata⟩, defaultConfigSnapshot, [bootEntry], false⟩) :=
  ⟨C2_bootstrap_initial_state.1 envBoot rfl rfl rfl rfl,
   C2_bootstrap_initial_state.2 envBoot rfl rfl rfl rfl⟩

/-- C3: On every fresh start without the bootstrap flag, both orchestrators
first run discovery seeding, then send a Noop Propose with wait:true to the
first discovered peer, and the server id recorded in the metadata file (and
in the returned initial state) is exactly the log index of the Propose
response; the cluster id is the one the agent learned during discovery. -/
theorem C3_join_id_from_propose_index :
    ∀ (env : Env) (f : ServerId) (rest : List ServerId) (c : ClusterId),
    env.builderError = false → env.metaExists = false → env.lastApplied = 0 →
    env.bootstrap = false → env.seedOk = true → env.routesAfterSeed = f :: rest →
    env.proposeOk = true → env.agentClusterId = some c →
    nodeStart env =
      ([.branchFresh, .purgeConfig, .purgeRoutes, .purgeLog, .seed,
        .proposeCall f ⟨.Noop, true⟩, .logCreate, .logFlush, .configCreate, .routesCreate,
        .metaCreate ⟨env.proposeResp.index, c, defaultMetadata⟩,
        .proposeCall 1 ⟨.Config (.AddMember env.proposeResp.index), false⟩],
       .ok ⟨false, ⟨env.proposeResp.index, c, defaultMetadata⟩, defaultConfigSnapshot,
         [], true⟩) ∧
    (env.dirLockError = false → env.configExists = false →
      mainTask env =
        ([.branchFresh, .seed, .proposeCall f ⟨.Noop, true⟩,
          .metaCreate ⟨env.proposeResp.index, c, defaultMetadata⟩, .configCreate, .logCreate,
          .proposeCall 1 ⟨.Config (.AddMember env.proposeResp.index), false⟩],
         .ok ⟨false, ⟨env.proposeResp.index, c, defaultMetadata⟩, defaultConfigSnapshot,
           [], true⟩)) :=
  fun env f rest c hbe hme hla hbs hs hr hp ha =>
    ⟨nodeStart_join env f rest c hbe hme hla hbs hs hr hp ha,
     fun hd hce => mainTask_join env f rest c hd hme hce hbs hs hr hp ha⟩

/-- C3 witness: in the concrete join scenario envJoin (peers 5 and 6 are
discovered, the Noop propose returns index 4, the agent learned cluster id
77) both orchestrators seed first, propose to peer 5, and persist server id 4
with cluster id 77. -/
theorem C3_join_id_from_propose_index_w :
    nodeStart envJoin =
      ([.branchFresh, .purgeConfig, .purgeRoutes, .purgeLog, .seed,
        .proposeCall 5 ⟨.Noop, true⟩, .logCreate, .logFlush, .configCreate, .routesCreate,
        .metaCreate ⟨4, 77, defaultMetadata⟩,
        .proposeCall 1 ⟨.Config (.AddMember 4), false⟩],
       .ok ⟨false, ⟨4, 77, defaultMetadata⟩, defaultConfigSnapshot, [], true⟩) ∧
    mainTask envJoin =
      ([.branchFresh, .seed, .proposeCall 5 ⟨.Noop, true⟩,
        .metaCreate ⟨4, 77, defaultMetadata⟩, .configCreate, .logCreate,
        .proposeCall 1 ⟨.Config (.AddMember 4), false⟩],
       .ok ⟨false, ⟨4, 77, defaultMetadata⟩, defaultConfigSnapshot, [], true⟩) :=
  ⟨(C3_join_id_from_propose_index envJoin 5 [6] 77 rfl rfl rfl rfl rfl rfl rfl rfl).1,
   (C3_join_id_from_propose_index envJoin 5 [6] 77 rfl rfl rfl rfl rfl rfl rfl rfl).2 rfl rfl⟩

/-- C4 (amended): Node::start takes the restore branch exactly when the
metadata file exists, so there the metadata file alone decides between
restoring and fresh initialization; main_task takes the restore branch
exactly when the metadata file OR the config snapshot file exists, so for it
the config snapshot file also decides. -/
theorem C4_restore_decision : ∀ env : Env,
    (env.builderError = false →
      (nodeStart env).fst.head? =
        some (if env.metaExists then Event.branchRestore else Event.branchFresh)) ∧
    (env.dirLockError = false →
      (mainTask env).fst.head? =
        some (if env.metaExists || env.configExists then Event.branchRestore
              else Event.branchFresh)) := by
  intro env
  obtain ⟨bs, la, dle, be, me, ce, re, sm, sc, sa, sl, rc, so, ras, po, pr, ac⟩ := env
  constructor
  · intro hb
    subst hb
    simp only [nodeStart, freshIdAssign]
    cases me <;> cases la <;> cases bs <;> cases so <;> cases po <;>
      cases ac <;> cases ras <;> cases ce <;> cases re <;>
      simp [finishWith, purgeEvents]
  · intro hd
    subst hd
    simp only [mainTask, freshIdAssign]
    cases me <;> cases ce <;> cases bs <;> cases so <;> cases po <;>
      cases ac <;> cases ras <;>
      simp [finishWith, mainWrites]

/-- C4 fails as stated for main_task: with a config snapshot file present but
no metadata file, main_task takes the restore branch (and then dies opening
the missing metadata file) instead of performing fresh initialization, so the
metadata file is not the sole deciding file. -/
theorem C4_cex_config_file_triggers_restore :
    envConfigOnly.metaExists = false ∧
    (mainTask envConfigOnly).fst.head? = some Event.branchRestore ∧
    (mainTask envConfigOnly).snd = .error .ioError :=
  ⟨rfl, rfl, rfl⟩

/-- C4 witness: on the concrete restart scenario envRestoreEmpty (all files
present) both orchestrators take the restore branch. -/
theorem C4_restore_decision_w :
    (nodeStart envRestoreEmpty).fst.head? = some Event.branchRestore ∧
    (mainTask envRestoreEmpty).fst.head? = some Event.branchRestore :=
  ⟨(C4_restore_decision envRestoreEmpty).1 rfl, (C4_restore_decision envRestoreEmpty).2 rfl⟩

/-- C5 (amended): after a successful start Node::start issues the Propose of
Config(AddMember(self id)) with wait:false to server id 1 exactly when the
node's (well-formed) log was empty at start; main_task issues it exactly when
it took the fresh non-bootstrap join path, so a restarted main_task node
whose log is empty at start issues no membership proposal. -/
theorem C5_join_propose_iff_empty_log :
    (∀ (env : Env) (r : StartResult), wfLog env.storedLog = true →
      (nodeStart env).snd = .ok r →
      hasJoinPropose r.meta.id (nodeStart env).fst = r.log.isEmpty) ∧
    (∀ (env : Env) (r : StartResult), (mainTask env).snd = .ok r →
      hasJoinPropose r.meta.id (mainTask env).fst = (!r.restored && !env.bootstrap)) := by
  constructor
  · intro env r hwf h
    cases hbe : env.builderError with
    | true =>
      rw [nodeStart_builderErr env hbe] at h
      exact Except.noConfusion h
    | false =>
      cases hme : env.metaExists with
      | true =>
        cases hcr : (env.configExists && env.routesExists) with
        | false =>
          rw [nodeStart_restoreMissing env hbe hme hcr] at h
          exact Except.noConfusion h
        | true =>
          rw [nodeStart_restore env hbe hme hcr] at h ⊢
          rw [finishWith_snd] at h
          injection h with h2
          subst h2
          show hasJoinPropose env.storedMeta.id
              (finishWith .branchRestore [] true env.storedMeta env.storedConfig
                env.storedLog (lastIndex env.storedLog == 0)).fst =
            env.storedLog.isEmpty
          rw [finishWith_fst, lastIndex_zero_iff env.storedLog hwf]
          cases hE : env.storedLog.isEmpty <;>
            simp [hasJoinPropose, isJoinProposeFor, joinProposeEvent, serverIdentityId]
      | false =>
        cases hla : env.lastApplied with
        | succ n =>
          rw [nodeStart_smPanic env hbe hme (by omega)] at h
          exact Except.noConfusion h
        | zero =>
          cases hbs : env.bootstrap with
          | true =>
            rw [nodeStart_boot env hbe hme hla hbs] at h ⊢
            injection h with h2
            subst h2
            simp [hasJoinPropose, isJoinProposeFor, bootEntry]
          | false =>
            cases hs : env.seedOk with
            | false =>
              rw [nodeStart_seedFail env hbe hme hla hbs hs] at h
              exact Except.noConfusion h
            | true =>
              cases hr : env.routesAfterSeed with
              | nil =>
                rw [nodeStart_noRoutes env hbe hme hla hbs hs hr] at h
                exact Except.noConfusion h
              | cons f rest =>
                cases hp : env.proposeOk with
                | false =>
                  rw [nodeStart_proposeFail env f rest hbe hme hla hbs hs hr hp] at h
                  exact Except.noConfusion h
                | true =>
                  cases ha : env.agentClusterId with
                  | none =>
                    rw [nodeStart_noCid env f rest hbe hme hla hbs hs hr hp ha] at h
                    exact Except.noConfusion h
                  | some c =>
                    rw [nodeStart_join env f rest c hbe hme hla hbs hs hr hp ha] at h ⊢
                    injection h with h2
                    subst h2
                    simp [hasJoinPropose, isJoinProposeFor]
  · intro env r h
    cases hd : env.dirLockError with
    | true =>
      rw [mainTask_dirLock env hd] at h
      exact Except.noConfusion h
    | false =>
      cases hme : env.metaExists with
      | true =>
        cases hce : env.configExists with
        | false =>
          rw [mainTask_restoreMissing env hd (by simp [hme]) (by simp [hce])] at h
          exact Except.noConfusion h
        | true =>
          rw [mainTask_restore env hd hme hce] at h ⊢
          rw [finishWith_snd] at h
          injection h with h2
          subst h2
          show hasJoinPropose env.storedMeta.id
              (finishWith .branchRestore [] true env.storedMeta env.storedConfig
                env.storedLog false).fst = (!true && !env.bootstrap)
          rw [finishWith_fst]
          simp [hasJoinPropose, isJoinProposeFor]
      | false =>
        cases hce : env.configExists with
        | true =>
          rw [mainTask_restoreMissing env hd (by simp [hce]) (by simp [hme])] at h
          exact Except.noConfusion h
        | false =>
          cases hbs : env.bootstrap with
          | true =>
            rw [mainTask_boot env hd hme hce hbs] at h ⊢
            injection h with h2
            subst h2
            simp [hbs, hasJoinPropose, isJoinProposeFor, bootEntry]
          | false =>
            cases hs : env.seedOk with
            | false =>
              rw [mainTask_seedFail env hd hme hce hbs hs] at h
              exact Except.noConfusion h
            | true =>
              cases hr : env.routesAfterSeed with
              | nil =>
                rw [mainTask_noRoutes env hd hme hce hbs hs hr] at h
                exact Except.noConfusion h
              | cons f rest =>
                cases hp : env.proposeOk with
                | false =>
                  rw [mainTask_proposeFail env f rest hd hme hce hbs hs hr hp] at h
                  exact Except.noConfusion h
                | true =>
                  cases ha : env.agentClusterId with
                  | none =>
                    rw [mainTask_noCid env f rest hd hme hce hbs hs hr hp ha] at h
                    exact Except.noConfusion h
                  | some c =>
                    rw [mainTask_join env f rest c hd hme hce hbs hs hr hp ha] at h ⊢
                    injection h with h2
                    subst h2
                    simp [hbs, hasJoinPropose, isJoinProposeFor]

/-- C5 fails as stated for main_task: restarting from disk with an empty
stored log (envRestoreEmpty), the start succeeds with a log that is empty at
start, yet no AddMember membership proposal for the node id 7 appears in the
trace, because main_task hardwires is_empty to false on the restore path. -/
theorem C5_cex_main_restored_empty_log :
    (mainTask envRestoreEmpty).snd = .ok ⟨true, smpl, scfg, [], false⟩ ∧
    hasJoinPropose 7 (mainTask envRestoreEmpty).fst = false :=
  ⟨rfl, rfl⟩

/-- C5 witness: on the restart scenario envRestoreEmpty, Node::start (whose
stored log is empty and trivially well formed) does issue the membership
proposal for its id 7, and main_task on the same scenario does not. -/
theorem C5_join_propose_iff_empty_log_w :
    hasJoinPropose 7 (nodeStart envRestoreEmpty).fst = true ∧
    hasJoinPropose 7 (mainTask envRestoreEmpty).fst = false :=
  ⟨C5_join_propose_iff_empty_log.1 envRestoreEmpty ⟨true, smpl, scfg, [], true⟩ rfl rfl,
   C5_join_propose_iff_empty_log.2 envRestoreEmpty ⟨true, smpl, scfg, [], false⟩ rfl⟩

/-- C6 (amended): the process terminates with exit status zero on every run:
main maps any fatal startup error of main_task to an eprintln and discards
it, then returns Ok(()), so a fatal startup error is logged but the exit
status is 0 rather than non-zero. -/
theorem C6_exit_status_zero : ∀ env : Env, mainExitStatus env = 0 := by
  intro env
  unfold mainExitStatus
  cases h : (mainTask env).snd <;> rfl

/-- C6 fails as stated: on the concrete run envLockFail the startup dies with
an I/O error (the directory lock fails), yet the process exit status is 0,
not non-zero. -/
theorem C6_cex_fatal_error_exits_zero :
    (mainTask envLockFail).snd = .error .ioError ∧ mainExitStatus envLockFail = 0 :=
  ⟨rfl, rfl⟩

set_option maxHeartbeats 1600000 in
/-- C7: on every fresh start of Node::start (no metadata file, clean
last_applied) the three purges of leftover config, routes and log state are
the first actions after the branch decision, and on every run of Node::start
whatsoever each durable-file write is preceded by all three purges, so no
partial leftover content survives into the newly written state. -/
theorem C7_fresh_start_purges :
    (∀ env : Env, env.builderError = false → env.metaExists = false →
      env.lastApplied = 0 →
      (nodeStart env).fst.take 4 =
        [Event.branchFresh, Event.purgeConfig, Event.purgeRoutes, Event.purgeLog]) ∧
    (∀ env : Env, purgesBeforeWrites (nodeStart env).fst = true) := by
  constructor
  · intro env hb hm hl
    obtain ⟨bs, la, dle, be, me, ce, re, sm, sc, sa, sl, rc, so, ras, po, pr, ac⟩ := env
    simp only at hb hm hl
    subst hb; subst hm; subst hl
    simp only [nodeStart, freshIdAssign]
    cases bs <;> cases so <;> cases po <;> cases ac <;> cases ras <;>
      simp [finishWith, purgeEvents, freshWrites, bootEntry, lastIndex]
  · intro env
    obtain ⟨bs, la, dle, be, me, ce, re, sm, sc, sa, sl, rc, so, ras, po, pr, ac⟩ := env
    simp only [nodeStart, freshIdAssign]
    cases be <;> cases me <;> cases la <;> cases bs <;> cases so <;> cases po <;>
      cases ac <;> cases ras <;> cases ce <;> cases re <;>
      simp [purgesBeforeWrites, occursBefore, finishWith, freshWrites, purgeEvents,
        joinProposeEvent, bootEntry, lastIndex, Event.isWrite, Event.isPurgeConfig,
        Event.isPurgeRoutes, Event.isPurgeLog] <;>
      first
        | rfl
        | (split <;> simp [purgesBeforeWrites, occursBefore, joinProposeEvent,
            Event.isWrite, Event.isPurgeConfig, Event.isPurgeRoutes, Event.isPurgeLog])

/-- C7 witness: the fresh bootstrap scenario envBoot starts with the branch
decision followed by the three purges, and all its writes come after them. -/
theorem C7_fresh_start_purges_w :
    (nodeStart envBoot).fst.take 4 =
      [Event.branchFresh, Event.purgeConfig, Event.purgeRoutes, Event.purgeLog] ∧
    purgesBeforeWrites (nodeStart envBoot).fst = true :=
  ⟨C7_fresh_start_purges.1 envBoot rfl rfl rfl, C7_fresh_start_purges.2 envBoot⟩

/-- C8: Node::routes_sync does loop with the fixed 5000 ms delay, but its body
persists nothing: one iteration is the identity on the visible state, so the
routes file on disk is never written by it (the disk-sync step is an
unimplemented TODO), contradicting both the claim and the function's own doc
comment; e.g. after an iteration with agent route 2 the routes file is still
absent. -/
theorem C8_routes_sync_no_persist :
    (∀ st : RoutesSyncState, routesSyncIter st = st) ∧
    (routesSyncIter ⟨[2], none⟩).routesFileOnDisk = none ∧
    routesSyncDelayMs = 5000 :=
  ⟨fun _ => rfl, rfl, rfl⟩

/-- C9: whenever the metadata file is absent but the configured last_applied
index is positive, Node::start panics with the corresponding message before
purging or writing anything, refusing to start fresh on top of existing
state-machine data. -/
theorem C9_panic_on_state_machine_without_meta : ∀ env : Env,
    env.builderError = false → env.metaExists = false → 0 < env.lastApplied →
    nodeStart env = ([.branchFresh], .error (.panicked stateMachinePanicMsg)) := by
  intro env hb hm hl
  obtain ⟨bs, la, dle, be, me, ce, re, sm, sc, sa, sl, rc, so, ras, po, pr, ac⟩ := env
  simp only at hb hm hl
  subst hb; subst hm
  simp [nodeStart, hl]

/-- C9 witness: the concrete scenario envStaleSM (no metadata file,
last_applied 3) makes Node::start panic without writing anything. -/
theorem C9_panic_on_state_machine_without_meta_w :
    nodeStart envStaleSM = ([.branchFresh], .error (.panicked stateMachinePanicMsg)) :=
  C9_panic_on_state_machine_without_meta envStaleSM rfl rfl (by decide)

/-- C10: on the non-bootstrap fresh-start path, when the agent holds no
cluster id after the Noop Propose completes, Node::start fails with the
panicked expect message and its trace contains no metadata write; and
whenever the agent learned cluster id c, every metadata file written in the
trace records exactly c. -/
theorem C10_learned_cluster_id_required : ∀ env : Env,
    env.builderError = false → env.metaExists = false → env.lastApplied = 0 →
    env.bootstrap = false → env.seedOk = true → env.proposeOk = true →
    (env.routesAfterSeed ≠ [] → env.agentClusterId = none →
      (nodeStart env).snd = .error (.panicked noClusterIdMsg) ∧
      (nodeStart env).fst.all (fun e => !(Event.isMetaCreate e)) = true) ∧
    (∀ c : ClusterId, env.agentClusterId = some c →
      metaWritesRecord c (nodeStart env).fst = true) := by
  intro env hb hm hl hbs hs hp
  obtain ⟨bs, la, dle, be, me, ce, re, sm, sc, sa, sl, rc, so, ras, po, pr, ac⟩ := env
  simp only at hb hm hl hbs hs hp
  subst hb; subst hm; subst hl; subst hbs; subst hs; subst hp
  constructor
  · intro hne ha
    simp only at ha
    subst ha
    cases ras with
    | nil => exact absurd rfl hne
    | cons f rest => exact ⟨rfl, rfl⟩
  · intro c ha
    simp only at ha
    subst ha
    cases ras with
    | nil =>
      simp [nodeStart, freshIdAssign, purgeEvents, metaWritesRecord]
    | cons f rest =>
      simp [nodeStart, freshIdAssign, purgeEvents, metaWritesRecord, finishWith,
        freshWrites, joinProposeEvent, lastIndex, Event.isMetaCreate]

/-- C10 witness: in the concrete scenario envNoCid the agent never learned a
cluster id and Node::start dies with the expect message, writing no metadata
file; in the join scenario envJoin (learned cluster id 77) every metadata
write records 77. -/
theorem C10_learned_cluster_id_required_w :
    ((nodeStart envNoCid).snd = .error (.panicked noClusterIdMsg) ∧
      (nodeStart envNoCid).fst.all (fun e => !(Event.isMetaCreate e)) = true) ∧
    metaWritesRecord 77 (nodeStart envJoin).fst = true :=
  ⟨(C10_learned_cluster_id_required envNoCid rfl rfl rfl rfl rfl rfl).1 (by decide) rfl,
   (C10_learned_cluster_id_required envJoin rfl rfl rfl rfl rfl rfl).2 77 rfl⟩

end Raft
